import Mathlib

/-!
Verification of the hotel cost calculator for the Paradores of El Hierro and
La Palma (`elhierro_lapalma.py`).

The Python module is embedded shallowly:

* the dataclasses `RoomRate`, `RoomInventory`, `RoomAllocation`, `HotelRates`
  and `HotelConfig` become Lean structures; monetary amounts (Python floats
  that only ever hold exact decimal values here) are modelled as rationals,
  room and people counts as naturals;
* the in-place mutation of a `RoomAllocation` inside the two allocation
  helpers is made explicit: each loop body becomes a function from
  (allocation, people_remaining) pairs to such pairs, and the `for` loop over
  the cost-sorted category list becomes a `List.foldl` over that list (the
  `break` on `people_remaining <= 0` is rendered as a step that leaves the
  state unchanged when no people remain, which is equivalent because every
  later iteration would have hit the same `break`);
* Python exceptions (`ValueError` raised by the allocator and the
  calculator's lookups, `ZeroDivisionError` raised by `/` with a zero
  divisor) become an `Except PyError` result; each division whose divisor
  can be zero is guarded exactly where Python would raise.
-/

deriving instance DecidableEq for Except

/-- Python exceptions raised by the module: the explicit `ValueError`s of the
allocator and the calculator, and the `ZeroDivisionError` that `/` raises on a
zero divisor. -/
inductive PyError where
  | capacityExceeded (requested maxCapacity : ℕ)
  | allocationFailed
  | unknownHotel (key : String)
  | zeroDivision
deriving DecidableEq

/-- `RoomRate`: nightly price of one room under each occupancy mode. -/
structure RoomRate where
  shared_rate : ℚ
  single_rate : ℚ
deriving DecidableEq

/-- `RoomInventory`: maximum available rooms by category. -/
structure RoomInventory where
  standard_count : ℕ
  superior_count : ℕ
deriving DecidableEq

/-- `HotelRates`: pricing for a hotel, by room category. -/
structure HotelRates where
  standard : RoomRate
  superior : RoomRate
deriving DecidableEq

/-- `HotelConfig`: complete configuration of one property. -/
structure HotelConfig where
  name : String
  inventory : RoomInventory
  rates : HotelRates
  coffee_break_cost : ℚ
  meeting_room_cost : ℚ
deriving DecidableEq

/-- Module-level constant `NIGHTS = 5`. -/
def NIGHTS : ℕ := 5

/-- Module-level constant `MEAL_COST_PER_PERSON = 38`. -/
def MEAL_COST_PER_PERSON : ℚ := 38

/-- `RoomAllocation`: number of rooms used per category/occupancy pair. -/
structure RoomAllocation where
  standard_shared : ℕ
  standard_single : ℕ
  superior_shared : ℕ
  superior_single : ℕ
deriving DecidableEq

/-- `RoomAllocation.get_total_cost`: nightly cost of the allocation times the
number of nights. -/
def RoomAllocation.get_total_cost (a : RoomAllocation) (rates : HotelRates) : ℚ :=
  (a.standard_shared * rates.standard.shared_rate +
   a.standard_single * rates.standard.single_rate +
   a.superior_shared * rates.superior.shared_rate +
   a.superior_single * rates.superior.single_rate) * (NIGHTS : ℚ)

/-- `RoomAllocation.get_total_rooms_used`. -/
def RoomAllocation.get_total_rooms_used (a : RoomAllocation) : ℕ :=
  a.standard_shared + a.standard_single + a.superior_shared + a.superior_single

/-- `HotelConfig.get_max_capacity`: every room houses at most two people. -/
def HotelConfig.get_max_capacity (c : HotelConfig) : ℕ :=
  c.inventory.standard_count * 2 + c.inventory.superior_count * 2

/-- One iteration of the `for` loop of `_allocate_shared_rooms`: `true` is the
`"standard"` branch, `false` the `"superior"` branch.  The guard models the
`break` on `people_remaining <= 0` (the counter never becomes negative, so the
test is `= 0` on naturals). -/
def sharedStep (config : HotelConfig) (isStandard : Bool)
    (s : RoomAllocation × ℕ) : RoomAllocation × ℕ :=
  if s.2 = 0 then s
  else if isStandard then
    let use := min (config.inventory.standard_count - s.1.standard_shared) (s.2 / 2)
    ({s.1 with standard_shared := use}, s.2 - use * 2)
  else
    let use := min (config.inventory.superior_count - s.1.superior_shared) (s.2 / 2)
    ({s.1 with superior_shared := use}, s.2 - use * 2)

/-- The category order produced by sorting `room_costs` in
`_allocate_shared_rooms`: Python sorts the pairs `(shared_rate / 2, name)`
lexicographically, and `"standard" < "superior"` breaks ties, so standard
comes first exactly when its per-person shared cost is `≤` the superior one. -/
def shared_order (config : HotelConfig) : List Bool :=
  if config.rates.standard.shared_rate / 2 ≤ config.rates.superior.shared_rate / 2
  then [true, false] else [false, true]

/-- `HotelAllocator._allocate_shared_rooms`, with the mutated allocation and
the returned `people_remaining` threaded explicitly. -/
def _allocate_shared_rooms (config : HotelConfig) (a : RoomAllocation)
    (people_remaining : ℕ) : RoomAllocation × ℕ :=
  (shared_order config).foldl (fun s b => sharedStep config b s) (a, people_remaining)

/-- One iteration of the `for` loop of `_allocate_single_rooms`. -/
def singleStep (config : HotelConfig) (isStandard : Bool)
    (s : RoomAllocation × ℕ) : RoomAllocation × ℕ :=
  if s.2 = 0 then s
  else if isStandard then
    let use := min (config.inventory.standard_count - s.1.standard_shared - s.1.standard_single) s.2
    ({s.1 with standard_single := use}, s.2 - use)
  else
    let use := min (config.inventory.superior_count - s.1.superior_shared - s.1.superior_single) s.2
    ({s.1 with superior_single := use}, s.2 - use)

/-- The category order produced by sorting `room_costs` in
`_allocate_single_rooms` (single rates, same tie-break as `shared_order`). -/
def single_order (config : HotelConfig) : List Bool :=
  if config.rates.standard.single_rate ≤ config.rates.superior.single_rate
  then [true, false] else [false, true]

/-- `HotelAllocator._allocate_single_rooms`, threaded explicitly. -/
def _allocate_single_rooms (config : HotelConfig) (s : RoomAllocation × ℕ) :
    RoomAllocation × ℕ :=
  (single_order config).foldl (fun t b => singleStep config b t) s

/-- `HotelAllocator.allocate_rooms`. -/
def allocate_rooms (config : HotelConfig) (num_people : ℕ) :
    Except PyError RoomAllocation :=
  if config.get_max_capacity < num_people then
    Except.error (PyError.capacityExceeded num_people config.get_max_capacity)
  else
    match _allocate_single_rooms config (_allocate_shared_rooms config ⟨0, 0, 0, 0⟩ num_people) with
    | (allocation, people_remaining) =>
      if 0 < people_remaining then Except.error PyError.allocationFailed
      else Except.ok allocation

/-- The `HotelAllocator` object: it holds the configuration and nothing else,
and none of its methods ever reassigns `self.config`. -/
structure HotelAllocator where
  config : HotelConfig
deriving DecidableEq

/-- A call of the method `allocate_rooms` on a `HotelAllocator` object,
returning the result together with the state of the receiver after the call
(the method only reads `self.config`; the `RoomAllocation` it mutates is a
fresh local object). -/
def HotelAllocator.allocate_rooms_call (self : HotelAllocator) (num_people : ℕ) :
    Except PyError RoomAllocation × HotelAllocator :=
  (allocate_rooms self.config num_people, self)

/-- The `"el_hierro"` entry of `HotelCostCalculator._initialize_hotels`. -/
def el_hierro : HotelConfig :=
  { name := "Parador de El Hierro"
    inventory := { standard_count := 20, superior_count := 20 }
    rates :=
      { standard := { shared_rate := 158, single_rate := 136 }
        superior := { shared_rate := 181, single_rate := 159 } }
    coffee_break_cost := 7
    meeting_room_cost := 200 }

/-- The `"la_palma"` entry of `HotelCostCalculator._initialize_hotels`. -/
def la_palma : HotelConfig :=
  { name := "Parador de La Palma"
    inventory := { standard_count := 21, superior_count := 24 }
    rates :=
      { standard := { shared_rate := 164, single_rate := 144 }
        superior := { shared_rate := 186, single_rate := 166 } }
    coffee_break_cost := 8
    meeting_room_cost := 800 }

/-- The dictionary `self.hotels` built by `_initialize_hotels`, as a lookup
function on its two keys. -/
def getHotel (hotel_key : String) : Option HotelConfig :=
  if hotel_key = "el_hierro" then some el_hierro
  else if hotel_key = "la_palma" then some la_palma
  else none

/-- `HotelCostCalculator.calculate_accommodation_cost`: the final
`total_accommodation_cost / num_people` raises `ZeroDivisionError` when
`num_people = 0`, hence the guard. -/
def calculate_accommodation_cost (num_people : ℕ) (hotel_key : String) :
    Except PyError ℚ :=
  match getHotel hotel_key with
  | none => Except.error (PyError.unknownHotel hotel_key)
  | some config =>
    match allocate_rooms config num_people with
    | Except.error e => Except.error e
    | Except.ok allocation =>
      if num_people = 0 then Except.error PyError.zeroDivision
      else Except.ok (allocation.get_total_cost config.rates / (num_people : ℚ))

/-- `HotelCostCalculator.calculate_meal_cost`: a constant — the module uses
the global `NIGHTS`, takes no duration argument and performs no validation. -/
def calculate_meal_cost : ℚ :=
  ((1 + 3 * (NIGHTS - 2) + 1 : ℕ) : ℚ) * MEAL_COST_PER_PERSON

/-- `HotelCostCalculator.calculate_coffee_break_cost`. -/
def calculate_coffee_break_cost (hotel_key : String) : Except PyError ℚ :=
  match getHotel hotel_key with
  | none => Except.error (PyError.unknownHotel hotel_key)
  | some config => Except.ok (((2 * (NIGHTS - 2) : ℕ) : ℚ) * config.coffee_break_cost)

/-- `HotelCostCalculator.calculate_meeting_room_cost`: the division
`meeting_room_cost / num_people` raises `ZeroDivisionError` when
`num_people = 0`. -/
def calculate_meeting_room_cost (num_people : ℕ) (hotel_key : String) :
    Except PyError ℚ :=
  match getHotel hotel_key with
  | none => Except.error (PyError.unknownHotel hotel_key)
  | some config =>
    if num_people = 0 then Except.error PyError.zeroDivision
    else Except.ok (config.meeting_room_cost / (num_people : ℚ))

/-- `HotelCostCalculator.calculate_total_price_per_person`, composing the four
components in source order. -/
def calculate_total_price_per_person (num_people : ℕ) (hotel_key : String) :
    Except PyError ℚ := do
  let accommodation_cost ← calculate_accommodation_cost num_people hotel_key
  let meal_cost := calculate_meal_cost
  let coffee_break_cost ← calculate_coffee_break_cost hotel_key
  let meeting_room_cost ← calculate_meeting_room_cost num_people hotel_key
  return accommodation_cost + meal_cost + coffee_break_cost + meeting_room_cost

/-- `HotelCostCalculator.get_detailed_allocation`, in source order: the
allocation, then total accommodation, meal, coffee-break and meeting-room
costs (the last one multiplied back by `num_people`). -/
def get_detailed_allocation (num_people : ℕ) (hotel_key : String) :
    Except PyError (RoomAllocation × ℚ × ℚ × ℚ × ℚ) :=
  match getHotel hotel_key with
  | none => Except.error (PyError.unknownHotel hotel_key)
  | some config =>
    match allocate_rooms config num_people with
    | Except.error e => Except.error e
    | Except.ok allocation =>
      match calculate_coffee_break_cost hotel_key with
      | Except.error e => Except.error e
      | Except.ok coffee_per_person =>
        match calculate_meeting_room_cost num_people hotel_key with
        | Except.error e => Except.error e
        | Except.ok meeting_per_person =>
          Except.ok (allocation,
            allocation.get_total_cost config.rates,
            calculate_meal_cost * (num_people : ℚ),
            coffee_per_person * (num_people : ℚ),
            meeting_per_person * (num_people : ℚ))

/-- An allocation is feasible for a group of `n` people under `config` when
its room counts respect both per-category inventory caps and it houses
exactly `n` people (two per shared room, one per single room). -/
def Feasible (config : HotelConfig) (n : ℕ) (a : RoomAllocation) : Prop :=
  a.standard_shared + a.standard_single ≤ config.inventory.standard_count ∧
  a.superior_shared + a.superior_single ≤ config.inventory.superior_count ∧
  2 * a.standard_shared + a.standard_single +
    2 * a.superior_shared + a.superior_single = n

instance (config : HotelConfig) (n : ℕ) (a : RoomAllocation) :
    Decidable (Feasible config n a) := by
  unfold Feasible; infer_instance

/-- The meal-cost interface described by the specification, for comparison
with the implemented `calculate_meal_cost`: it takes the number of nights as
an input, rejects `nights < 2` with `InvalidDuration`, and otherwise charges
`(2 + 3*(nights-2))` meals per person. -/
inductive SpecDurationError where
  | invalidDuration
deriving DecidableEq

/-- Specification-side meal cost as a function of `nights` (see
`calculate_meal_cost` for the implemented, constant version). -/
def mealCost_spec (nights : ℕ) : Except SpecDurationError ℚ :=
  if nights < 2 then Except.error SpecDurationError.invalidDuration
  else Except.ok (((2 + 3 * (nights - 2) : ℕ) : ℚ) * MEAL_COST_PER_PERSON)

/-! ### Ground facts about the allocator -/

lemma shared_order_el_hierro : shared_order el_hierro = [true, false] := by
  unfold shared_order el_hierro; norm_num

lemma single_order_el_hierro : single_order el_hierro = [true, false] := by
  unfold single_order el_hierro; norm_num

lemma shared_order_la_palma : shared_order la_palma = [true, false] := by
  unfold shared_order la_palma; norm_num

lemma single_order_la_palma : single_order la_palma = [true, false] := by
  unfold single_order la_palma; norm_num

lemma sharedStep_true (cfg : HotelConfig) (w x y z pr : ℕ) :
    sharedStep cfg true (⟨w, x, y, z⟩, pr)
      = if pr = 0 then (⟨w, x, y, z⟩, pr)
        else (⟨min (cfg.inventory.standard_count - w) (pr / 2), x, y, z⟩,
              pr - min (cfg.inventory.standard_count - w) (pr / 2) * 2) := rfl

lemma sharedStep_false (cfg : HotelConfig) (w x y z pr : ℕ) :
    sharedStep cfg false (⟨w, x, y, z⟩, pr)
      = if pr = 0 then (⟨w, x, y, z⟩, pr)
        else (⟨w, x, min (cfg.inventory.superior_count - y) (pr / 2), z⟩,
              pr - min (cfg.inventory.superior_count - y) (pr / 2) * 2) := rfl

lemma singleStep_true (cfg : HotelConfig) (w x y z pr : ℕ) :
    singleStep cfg true (⟨w, x, y, z⟩, pr)
      = if pr = 0 then (⟨w, x, y, z⟩, pr)
        else (⟨w, min (cfg.inventory.standard_count - w - x) pr, y, z⟩,
              pr - min (cfg.inventory.standard_count - w - x) pr) := rfl

lemma singleStep_false (cfg : HotelConfig) (w x y z pr : ℕ) :
    singleStep cfg false (⟨w, x, y, z⟩, pr)
      = if pr = 0 then (⟨w, x, y, z⟩, pr)
        else (⟨w, x, y, min (cfg.inventory.superior_count - y - z) pr⟩,
              pr - min (cfg.inventory.superior_count - y - z) pr) := rfl

/-- Closed form of the two-phase greedy allocator for any configuration whose
cost-sorted category order is standard-first in both phases: fill standard
shared rooms (`⌊N/2⌋` of them, capped at `S`), then superior shared rooms,
then a possible odd single (standard while standard rooms remain, superior
otherwise). -/
lemma greedy_std_first (cfg : HotelConfig) (S P : ℕ)
    (hso : shared_order cfg = [true, false])
    (hsi : single_order cfg = [true, false])
    (hS : cfg.inventory.standard_count = S)
    (hP : cfg.inventory.superior_count = P)
    (N : ℕ) (hN : N ≤ 2 * S + 2 * P) :
    allocate_rooms cfg N =
      Except.ok (if N ≤ 2 * S then ⟨N / 2, N % 2, 0, 0⟩
                 else ⟨S, 0, (N - 2 * S) / 2, (N - 2 * S) % 2⟩) := by
  have hcap : cfg.get_max_capacity = 2 * S + 2 * P := by
    rw [HotelConfig.get_max_capacity, hS, hP]; ring
  have e1 : sharedStep cfg true (⟨0, 0, 0, 0⟩, N)
      = (⟨min S (N / 2), 0, 0, 0⟩, N - min S (N / 2) * 2) := by
    rw [sharedStep_true, hS]
    by_cases h0 : N = 0
    · subst h0; simp
    · rw [if_neg h0, Nat.sub_zero]
  have e2 : ∀ m1 pr : ℕ, sharedStep cfg false (⟨m1, 0, 0, 0⟩, pr)
      = (⟨m1, 0, min P (pr / 2), 0⟩, pr - min P (pr / 2) * 2) := by
    intro m1 pr
    rw [sharedStep_false, hP]
    by_cases h0 : pr = 0
    · subst h0; simp
    · rw [if_neg h0, Nat.sub_zero]
  have e3 : ∀ m1 m2 pr : ℕ, singleStep cfg true (⟨m1, 0, m2, 0⟩, pr)
      = (⟨m1, min (S - m1) pr, m2, 0⟩, pr - min (S - m1) pr) := by
    intro m1 m2 pr
    rw [singleStep_true, hS]
    by_cases h0 : pr = 0
    · subst h0; simp
    · rw [if_neg h0, Nat.sub_zero]
  have e4 : ∀ m1 m3 m2 pr : ℕ, singleStep cfg false (⟨m1, m3, m2, 0⟩, pr)
      = (⟨m1, m3, m2, min (P - m2) pr⟩, pr - min (P - m2) pr) := by
    intro m1 m3 m2 pr
    rw [singleStep_false, hP]
    by_cases h0 : pr = 0
    · subst h0; simp
    · rw [if_neg h0, Nat.sub_zero]
  unfold allocate_rooms _allocate_shared_rooms _allocate_single_rooms
  rw [hso, hsi]
  simp only [List.foldl_cons, List.foldl_nil]
  rw [e1, e2, e3, e4, hcap]
  rw [if_neg (by omega : ¬ (2 * S + 2 * P < N))]
  have hr4 : N - min S (N / 2) * 2 - min P ((N - min S (N / 2) * 2) / 2) * 2 -
      min (S - min S (N / 2)) (N - min S (N / 2) * 2 - min P ((N - min S (N / 2) * 2) / 2) * 2) -
      min (P - min P ((N - min S (N / 2) * 2) / 2))
        (N - min S (N / 2) * 2 - min P ((N - min S (N / 2) * 2) / 2) * 2 -
         min (S - min S (N / 2)) (N - min S (N / 2) * 2 - min P ((N - min S (N / 2) * 2) / 2) * 2)) = 0 := by
    omega
  simp only [hr4, Nat.lt_irrefl, if_false]
  rw [Except.ok.injEq]
  split_ifs with hle
  · rw [RoomAllocation.mk.injEq]
    refine ⟨by omega, by omega, by omega, by omega⟩
  · rw [RoomAllocation.mk.injEq]
    refine ⟨by omega, by omega, by omega, by omega⟩

/-- What `allocate_rooms` returns for El Hierro (20 standard, 20 superior). -/
lemma allocate_el_hierro (N : ℕ) (hN : N ≤ 80) :
    allocate_rooms el_hierro N =
      Except.ok (if N ≤ 40 then ⟨N / 2, N % 2, 0, 0⟩
                 else ⟨20, 0, (N - 40) / 2, (N - 40) % 2⟩) := by
  have h := greedy_std_first el_hierro 20 20 shared_order_el_hierro
    single_order_el_hierro rfl rfl N (by omega)
  norm_num at h
  exact h

/-- What `allocate_rooms` returns for La Palma (21 standard, 24 superior). -/
lemma allocate_la_palma (N : ℕ) (hN : N ≤ 90) :
    allocate_rooms la_palma N =
      Except.ok (if N ≤ 42 then ⟨N / 2, N % 2, 0, 0⟩
                 else ⟨21, 0, (N - 42) / 2, (N - 42) % 2⟩) := by
  have h := greedy_std_first la_palma 21 24 shared_order_la_palma
    single_order_la_palma rfl rfl N (by omega)
  norm_num at h
  exact h

lemma max_capacity_el_hierro : el_hierro.get_max_capacity = 80 := rfl

lemma max_capacity_la_palma : la_palma.get_max_capacity = 90 := rfl

lemma cost_el_hierro_mk (ss st ps pu : ℕ) :
    RoomAllocation.get_total_cost ⟨ss, st, ps, pu⟩ el_hierro.rates =
      ((158 * ss + 136 * st + 181 * ps + 159 * pu) * 5 : ℕ) := by
  unfold RoomAllocation.get_total_cost el_hierro NIGHTS
  push_cast
  ring

lemma cost_la_palma_mk (ss st ps pu : ℕ) :
    RoomAllocation.get_total_cost ⟨ss, st, ps, pu⟩ la_palma.rates =
      ((164 * ss + 144 * st + 186 * ps + 166 * pu) * 5 : ℕ) := by
  unfold RoomAllocation.get_total_cost la_palma NIGHTS
  push_cast
  ring

lemma feasible_mk (cfg : HotelConfig) (n ss st ps pu : ℕ) :
    Feasible cfg n ⟨ss, st, ps, pu⟩ ↔
      ss + st ≤ cfg.inventory.standard_count ∧
      ps + pu ≤ cfg.inventory.superior_count ∧
      2 * ss + st + 2 * ps + pu = n := Iff.rfl

/-- The greedy allocation for El Hierro is a cost lower bound over all
feasible allocations: standard-shared beds cost 79 per person-night, superior
shared 90.5, standard single 136, superior single 159, and the two inventory
caps are respected by construction. -/
lemma opt_el_hierro (N : ℕ) (hN : N ≤ 80) (a : RoomAllocation)
    (hf : Feasible el_hierro N a) :
    RoomAllocation.get_total_cost
        (if N ≤ 40 then ⟨N / 2, N % 2, 0, 0⟩ else ⟨20, 0, (N - 40) / 2, (N - 40) % 2⟩)
        el_hierro.rates
      ≤ a.get_total_cost el_hierro.rates := by
  obtain ⟨ss, st, ps, pu⟩ := a
  rw [feasible_mk] at hf
  simp only [el_hierro] at hf
  obtain ⟨ha, hb, hc⟩ := hf
  obtain ⟨k, hk | hk⟩ : ∃ k, N = 2 * k ∨ N = 2 * k + 1 := ⟨N / 2, by omega⟩
  all_goals by_cases hle : N ≤ 40
  · rw [if_pos hle, cost_el_hierro_mk, cost_el_hierro_mk, Nat.cast_le,
      (by omega : N / 2 = k), (by omega : N % 2 = 0)]
    linarith
  · rw [if_neg hle, cost_el_hierro_mk, cost_el_hierro_mk, Nat.cast_le]
    obtain ⟨j, rfl⟩ : ∃ j, k = 20 + j := ⟨k - 20, by omega⟩
    rw [(by omega : (N - 40) / 2 = j), (by omega : (N - 40) % 2 = 0)]
    linarith
  · rw [if_pos hle, cost_el_hierro_mk, cost_el_hierro_mk, Nat.cast_le,
      (by omega : N / 2 = k), (by omega : N % 2 = 1)]
    have hsd : 1 ≤ st + pu := by omega
    linarith
  · rw [if_neg hle, cost_el_hierro_mk, cost_el_hierro_mk, Nat.cast_le]
    obtain ⟨j, rfl⟩ : ∃ j, k = 20 + j := ⟨k - 20, by omega⟩
    rw [(by omega : (N - 40) / 2 = j), (by omega : (N - 40) % 2 = 1)]
    have hsd : 1 ≤ st + pu := by omega
    linarith

/-- The greedy allocation for La Palma is a cost lower bound over all
feasible allocations. -/
lemma opt_la_palma (N : ℕ) (hN : N ≤ 90) (a : RoomAllocation)
    (hf : Feasible la_palma N a) :
    RoomAllocation.get_total_cost
        (if N ≤ 42 then ⟨N / 2, N % 2, 0, 0⟩ else ⟨21, 0, (N - 42) / 2, (N - 42) % 2⟩)
        la_palma.rates
      ≤ a.get_total_cost la_palma.rates := by
  obtain ⟨ss, st, ps, pu⟩ := a
  rw [feasible_mk] at hf
  simp only [la_palma] at hf
  obtain ⟨ha, hb, hc⟩ := hf
  obtain ⟨k, hk | hk⟩ : ∃ k, N = 2 * k ∨ N = 2 * k + 1 := ⟨N / 2, by omega⟩
  all_goals by_cases hle : N ≤ 42
  · rw [if_pos hle, cost_la_palma_mk, cost_la_palma_mk, Nat.cast_le,
      (by omega : N / 2 = k), (by omega : N % 2 = 0)]
    linarith
  · rw [if_neg hle, cost_la_palma_mk, cost_la_palma_mk, Nat.cast_le]
    obtain ⟨j, rfl⟩ : ∃ j, k = 21 + j := ⟨k - 21, by omega⟩
    rw [(by omega : (N - 42) / 2 = j), (by omega : (N - 42) % 2 = 0)]
    linarith
  · rw [if_pos hle, cost_la_palma_mk, cost_la_palma_mk, Nat.cast_le,
      (by omega : N / 2 = k), (by omega : N % 2 = 1)]
    have hsd : 1 ≤ st + pu := by omega
    linarith
  · rw [if_neg hle, cost_la_palma_mk, cost_la_palma_mk, Nat.cast_le]
    obtain ⟨j, rfl⟩ : ∃ j, k = 21 + j := ⟨k - 21, by omega⟩
    rw [(by omega : (N - 42) / 2 = j), (by omega : (N - 42) % 2 = 1)]
    have hsd : 1 ≤ st + pu := by omega
    linarith

/-! ### Evaluation lemmas for the cost calculator -/

lemma getHotel_el_hierro : getHotel "el_hierro" = some el_hierro := by
  unfold getHotel
  rw [if_pos rfl]

lemma getHotel_la_palma : getHotel "la_palma" = some la_palma := by
  unfold getHotel
  rw [if_neg (by decide), if_pos rfl]

lemma accommodation_el_hierro_30 :
    calculate_accommodation_cost 30 "el_hierro" = Except.ok 395 := by
  unfold calculate_accommodation_cost
  rw [getHotel_el_hierro]
  dsimp only
  rw [allocate_el_hierro 30 (by omega)]
  norm_num [cost_el_hierro_mk]

lemma coffee_el_hierro : calculate_coffee_break_cost "el_hierro" = Except.ok 42 := by
  unfold calculate_coffee_break_cost
  rw [getHotel_el_hierro]
  dsimp only
  norm_num [NIGHTS, el_hierro]

lemma coffee_la_palma : calculate_coffee_break_cost "la_palma" = Except.ok 48 := by
  unfold calculate_coffee_break_cost
  rw [getHotel_la_palma]
  dsimp only
  norm_num [NIGHTS, la_palma]

lemma meeting_el_hierro_30 :
    calculate_meeting_room_cost 30 "el_hierro" = Except.ok (200 / 30) := by
  unfold calculate_meeting_room_cost
  rw [getHotel_el_hierro]
  dsimp only
  norm_num [el_hierro]

lemma meal_cost_value : calculate_meal_cost = 418 := by
  norm_num [calculate_meal_cost, NIGHTS, MEAL_COST_PER_PERSON]

lemma total_price_el_hierro_30 :
    calculate_total_price_per_person 30 "el_hierro" = Except.ok (2585 / 3) := by
  unfold calculate_total_price_per_person
  rw [accommodation_el_hierro_30, meal_cost_value, coffee_el_hierro, meeting_el_hierro_30]
  show Except.ok (395 + 418 + 42 + 200 / 30 : ℚ) = Except.ok (2585 / 3)
  norm_num

lemma accommodation_zero_el_hierro :
    calculate_accommodation_cost 0 "el_hierro" = Except.error PyError.zeroDivision := by
  unfold calculate_accommodation_cost
  rw [getHotel_el_hierro]
  dsimp only
  rw [allocate_el_hierro 0 (by omega)]
  dsimp only
  rw [if_pos rfl]

lemma accommodation_zero_la_palma :
    calculate_accommodation_cost 0 "la_palma" = Except.error PyError.zeroDivision := by
  unfold calculate_accommodation_cost
  rw [getHotel_la_palma]
  dsimp only
  rw [allocate_la_palma 0 (by omega)]
  dsimp only
  rw [if_pos rfl]

lemma meeting_zero_el_hierro :
    calculate_meeting_room_cost 0 "el_hierro" = Except.error PyError.zeroDivision := by
  unfold calculate_meeting_room_cost
  rw [getHotel_el_hierro]
  dsimp only
  rw [if_pos rfl]

lemma meeting_zero_la_palma :
    calculate_meeting_room_cost 0 "la_palma" = Except.error PyError.zeroDivision := by
  unfold calculate_meeting_room_cost
  rw [getHotel_la_palma]
  dsimp only
  rw [if_pos rfl]

lemma total_zero_el_hierro :
    calculate_total_price_per_person 0 "el_hierro" = Except.error PyError.zeroDivision := by
  unfold calculate_total_price_per_person
  rw [accommodation_zero_el_hierro]
  rfl

lemma total_zero_la_palma :
    calculate_total_price_per_person 0 "la_palma" = Except.error PyError.zeroDivision := by
  unfold calculate_total_price_per_person
  rw [accommodation_zero_la_palma]
  rfl

lemma detailed_zero_el_hierro :
    get_detailed_allocation 0 "el_hierro" = Except.error PyError.zeroDivision := by
  unfold get_detailed_allocation
  rw [getHotel_el_hierro]
  dsimp only
  rw [allocate_el_hierro 0 (by omega)]
  dsimp only
  rw [coffee_el_hierro]
  dsimp only
  rw [meeting_zero_el_hierro]

lemma detailed_zero_la_palma :
    get_detailed_allocation 0 "la_palma" = Except.error PyError.zeroDivision := by
  unfold get_detailed_allocation
  rw [getHotel_la_palma]
  dsimp only
  rw [allocate_la_palma 0 (by omega)]
  dsimp only
  rw [coffee_la_palma]
  dsimp only
  rw [meeting_zero_la_palma]

/-! ### Claim theorems -/

/-- C1: for every hotel configuration in the catalog (El Hierro, La Palma) and
every group size `N` with `1 ≤ N ≤ get_max_capacity`, the allocation returned
by `allocate_rooms` has minimal total accommodation cost (`get_total_cost`)
among all allocations of non-negative room counts that respect the two
per-category inventory caps and house exactly `N` people. -/
theorem allocate_rooms_minimizes_total_cost (cfg : HotelConfig)
    (hcfg : cfg = el_hierro ∨ cfg = la_palma) (N : ℕ)
    (h1 : 1 ≤ N) (h2 : N ≤ cfg.get_max_capacity) :
    ∃ alloc : RoomAllocation, allocate_rooms cfg N = Except.ok alloc ∧
      ∀ a : RoomAllocation, Feasible cfg N a →
        alloc.get_total_cost cfg.rates ≤ a.get_total_cost cfg.rates := by
  rcases hcfg with rfl | rfl
  · rw [max_capacity_el_hierro] at h2
    exact ⟨_, allocate_el_hierro N h2, fun a hf => opt_el_hierro N h2 a hf⟩
  · rw [max_capacity_la_palma] at h2
    exact ⟨_, allocate_la_palma N h2, fun a hf => opt_la_palma N h2 a hf⟩

/-- C1, witness: the optimality theorem instantiated at El Hierro, `N = 45`. -/
theorem allocate_rooms_minimizes_total_cost_witness :
    ∃ alloc : RoomAllocation, allocate_rooms el_hierro 45 = Except.ok alloc ∧
      ∀ a : RoomAllocation, Feasible el_hierro 45 a →
        alloc.get_total_cost el_hierro.rates ≤ a.get_total_cost el_hierro.rates :=
  allocate_rooms_minimizes_total_cost el_hierro (Or.inl rfl) 45 (by decide) (by decide)

/-- C2: for every catalog configuration and every `1 ≤ N ≤ get_max_capacity`,
`allocate_rooms` succeeds and the returned allocation respects both inventory
caps and houses exactly `N` people, so the trailing allocation-failure branch
is unreachable under this precondition. -/
theorem allocate_rooms_feasible_exact (cfg : HotelConfig)
    (hcfg : cfg = el_hierro ∨ cfg = la_palma) (N : ℕ)
    (h1 : 1 ≤ N) (h2 : N ≤ cfg.get_max_capacity) :
    ∃ alloc : RoomAllocation, allocate_rooms cfg N = Except.ok alloc ∧
      alloc.standard_shared + alloc.standard_single ≤ cfg.inventory.standard_count ∧
      alloc.superior_shared + alloc.superior_single ≤ cfg.inventory.superior_count ∧
      alloc.standard_shared * 2 + alloc.standard_single +
        alloc.superior_shared * 2 + alloc.superior_single = N := by
  rcases hcfg with rfl | rfl
  · rw [max_capacity_el_hierro] at h2
    refine ⟨_, allocate_el_hierro N h2, ?_⟩
    by_cases hle : N ≤ 40
    · rw [if_pos hle]
      simp only [el_hierro]
      refine ⟨by omega, by omega, by omega⟩
    · rw [if_neg hle]
      simp only [el_hierro]
      refine ⟨by omega, by omega, by omega⟩
  · rw [max_capacity_la_palma] at h2
    refine ⟨_, allocate_la_palma N h2, ?_⟩
    by_cases hle : N ≤ 42
    · rw [if_pos hle]
      simp only [la_palma]
      refine ⟨by omega, by omega, by omega⟩
    · rw [if_neg hle]
      simp only [la_palma]
      refine ⟨by omega, by omega, by omega⟩

/-- C2, witness: the invariants instantiated at La Palma, `N = 89`. -/
theorem allocate_rooms_feasible_exact_witness :
    ∃ alloc : RoomAllocation, allocate_rooms la_palma 89 = Except.ok alloc ∧
      alloc.standard_shared + alloc.standard_single ≤ la_palma.inventory.standard_count ∧
      alloc.superior_shared + alloc.superior_single ≤ la_palma.inventory.superior_count ∧
      alloc.standard_shared * 2 + alloc.standard_single +
        alloc.superior_shared * 2 + alloc.superior_single = 89 :=
  allocate_rooms_feasible_exact la_palma (Or.inr rfl) 89 (by decide) (by decide)

/-- C3, counterexample: with the El Hierro configuration and `N = 45` the code
returns 20 standard shared, 0 standard single, 2 superior SHARED and 1
superior single room — not the 5 superior single rooms the claim predicts
(the claim overlooks the superior half of the shared phase). -/
theorem allocate_rooms_el_hierro_45_counterexample :
    allocate_rooms el_hierro 45 = Except.ok ⟨20, 0, 2, 1⟩ ∧
    RoomAllocation.mk 20 0 2 1 ≠ RoomAllocation.mk 20 0 0 5 := by
  constructor
  · rw [allocate_el_hierro 45 (by omega)]
    norm_num
  · decide

/-- C3, amended: with the El Hierro configuration and `N = 45`,
`allocate_rooms` returns exactly 20 standard shared rooms, 0 standard single,
2 superior shared and 1 superior single room, and the total number of people
housed is 45 (after the standard-shared phase, the superior-shared phase
takes 4 of the 5 remaining people in two superior shared rooms and the last
person gets a superior single). -/
theorem allocate_rooms_el_hierro_45 :
    allocate_rooms el_hierro 45 = Except.ok ⟨20, 0, 2, 1⟩ ∧
    20 * 2 + 0 + 2 * 2 + 1 = 45 := by
  constructor
  · rw [allocate_el_hierro 45 (by omega)]
    norm_num
  · decide

/-- C4: for every configuration and every group size strictly above the
maximum capacity, `allocate_rooms` fails immediately — before touching any
allocation — with a capacity error that carries both the requested size and
the maximum capacity. -/
theorem allocate_rooms_capacity_exceeded (cfg : HotelConfig) (N : ℕ)
    (h : cfg.get_max_capacity < N) :
    allocate_rooms cfg N =
      Except.error (PyError.capacityExceeded N cfg.get_max_capacity) := by
  unfold allocate_rooms
  rw [if_pos h]

/-- C4, witness: El Hierro with `N = 81` (capacity 80). -/
theorem allocate_rooms_capacity_exceeded_witness :
    allocate_rooms el_hierro 81 =
      Except.error (PyError.capacityExceeded 81 el_hierro.get_max_capacity) :=
  allocate_rooms_capacity_exceeded el_hierro 81 (by decide)

/-- C5, counterexample: the meal-cost computation of the code does not take
the number of nights as an input — `calculate_meal_cost` is the constant 418
obtained from the module-level `NIGHTS = 5` — and it has no failure path,
whereas the claimed interface (`mealCost_spec`) rejects `nights = 1` with
`InvalidDuration`.  The two agree only at the hard-wired `nights = NIGHTS`. -/
theorem meal_cost_no_nights_input_counterexample :
    mealCost_spec 1 = Except.error SpecDurationError.invalidDuration ∧
    calculate_meal_cost = 418 ∧
    mealCost_spec NIGHTS = Except.ok calculate_meal_cost := by
  refine ⟨?_, meal_cost_value, ?_⟩
  · unfold mealCost_spec
    rw [if_pos (by omega)]
  · unfold mealCost_spec NIGHTS
    rw [if_neg (by omega)]
    norm_num [calculate_meal_cost, NIGHTS, MEAL_COST_PER_PERSON]

/-- C5, amended: the code fixes the stay length to the module constant
`NIGHTS = 5`; no duration argument exists and no InvalidDuration check is
performed.  For that fixed duration (which satisfies `2 ≤ NIGHTS`) the meal
cost per person equals `(2 + 3*(NIGHTS-2)) * MEAL_COST_PER_PERSON = 418`, the
formula the claim states for valid durations. -/
theorem meal_cost_constant_formula :
    calculate_meal_cost = ((2 + 3 * (NIGHTS - 2) : ℕ) : ℚ) * MEAL_COST_PER_PERSON ∧
    calculate_meal_cost = 418 ∧
    2 ≤ NIGHTS := by
  refine ⟨?_, meal_cost_value, by norm_num [NIGHTS]⟩
  norm_num [calculate_meal_cost, NIGHTS, MEAL_COST_PER_PERSON]

/-- C6, counterexample: the total per person for El Hierro with `N = 30` is
`2585/3 ≈ 861.67`, not approximately `1061.67` as the claim asserts — the
claimed approximation is off by slightly more than 200 (the full meeting-room
rental was double-counted on top of its per-person share when the spec added
up the components). -/
theorem el_hierro_30_total_approximation_counterexample :
    calculate_total_price_per_person 30 "el_hierro" = Except.ok (2585 / 3) ∧
    (106167 / 100 : ℚ) - 2585 / 3 > 200 :=
  ⟨total_price_el_hierro_30, by norm_num⟩

/-- C6, amended: with the El Hierro configuration and `N = 30` the allocation
is exactly 15 standard shared rooms and nothing else; accommodation total is
11850 and 395 per person; meals per person 418; coffee breaks per person 42;
meeting room per person `200/30`; and the total per person is
`395 + 418 + 42 + 200/30 = 2585/3 ≈ 861.67`. -/
theorem el_hierro_30_breakdown :
    allocate_rooms el_hierro 30 = Except.ok ⟨15, 0, 0, 0⟩ ∧
    RoomAllocation.get_total_cost ⟨15, 0, 0, 0⟩ el_hierro.rates = 11850 ∧
    calculate_accommodation_cost 30 "el_hierro" = Except.ok 395 ∧
    calculate_meal_cost = 418 ∧
    calculate_coffee_break_cost "el_hierro" = Except.ok 42 ∧
    calculate_meeting_room_cost 30 "el_hierro" = Except.ok (200 / 30) ∧
    calculate_total_price_per_person 30 "el_hierro" =
      Except.ok (395 + 418 + 42 + 200 / 30) := by
  refine ⟨?_, ?_, accommodation_el_hierro_30, meal_cost_value, coffee_el_hierro,
    meeting_el_hierro_30, ?_⟩
  · rw [allocate_el_hierro 30 (by omega)]
    norm_num
  · rw [cost_el_hierro_mk]
    norm_num
  · rw [total_price_el_hierro_30]
    norm_num

/-- C7: for every catalog property and every `1 ≤ N ≤ get_max_capacity`, the
accommodation cost per person returned by the aggregator equals
`get_total_cost` of the allocation returned by `allocate_rooms`, divided by
`N` (and the division is exact rational arithmetic in this embedding). -/
theorem accommodation_cost_round_trip (key : String) (cfg : HotelConfig)
    (hk : key = "el_hierro" ∧ cfg = el_hierro ∨ key = "la_palma" ∧ cfg = la_palma)
    (N : ℕ) (h1 : 1 ≤ N) (h2 : N ≤ cfg.get_max_capacity) :
    ∃ alloc : RoomAllocation, allocate_rooms cfg N = Except.ok alloc ∧
      calculate_accommodation_cost N key =
        Except.ok (alloc.get_total_cost cfg.rates / (N : ℚ)) := by
  rcases hk with ⟨rfl, rfl⟩ | ⟨rfl, rfl⟩
  · rw [max_capacity_el_hierro] at h2
    refine ⟨_, allocate_el_hierro N h2, ?_⟩
    unfold calculate_accommodation_cost
    rw [getHotel_el_hierro]
    dsimp only
    rw [allocate_el_hierro N h2]
    dsimp only
    rw [if_neg (by omega : ¬ N = 0)]
  · rw [max_capacity_la_palma] at h2
    refine ⟨_, allocate_la_palma N h2, ?_⟩
    unfold calculate_accommodation_cost
    rw [getHotel_la_palma]
    dsimp only
    rw [allocate_la_palma N h2]
    dsimp only
    rw [if_neg (by omega : ¬ N = 0)]

/-- C7, witness: the round-trip instantiated at La Palma, `N = 60`. -/
theorem accommodation_cost_round_trip_witness :
    ∃ alloc : RoomAllocation, allocate_rooms la_palma 60 = Except.ok alloc ∧
      calculate_accommodation_cost 60 "la_palma" =
        Except.ok (alloc.get_total_cost la_palma.rates / (60 : ℚ)) :=
  accommodation_cost_round_trip "la_palma" la_palma (Or.inr ⟨rfl, rfl⟩) 60
    (by decide) (by decide)

/-- C8: the allocator is deterministic and stateless — in the state-passing
embedding of a method call, calling `allocate_rooms` twice in a row on the
same allocator with the same group size returns the same result both times,
and neither call changes the allocator or its `HotelConfig`. -/
theorem allocate_rooms_deterministic_stateless (alc : HotelAllocator) (N : ℕ) :
    (alc.allocate_rooms_call N).1 = ((alc.allocate_rooms_call N).2.allocate_rooms_call N).1 ∧
    (alc.allocate_rooms_call N).2 = alc ∧
    ((alc.allocate_rooms_call N).2.allocate_rooms_call N).2.config = alc.config :=
  ⟨rfl, rfl, rfl⟩

/-- C9: for every catalog configuration and every `1 ≤ N ≤ get_max_capacity`,
the returned allocation uses no single rooms when `N` is even and exactly one
single room in total when `N` is odd. -/
theorem allocate_rooms_single_parity (cfg : HotelConfig)
    (hcfg : cfg = el_hierro ∨ cfg = la_palma) (N : ℕ)
    (h1 : 1 ≤ N) (h2 : N ≤ cfg.get_max_capacity) :
    ∃ alloc : RoomAllocation, allocate_rooms cfg N = Except.ok alloc ∧
      (N % 2 = 0 → alloc.standard_single = 0 ∧ alloc.superior_single = 0) ∧
      (N % 2 = 1 → alloc.standard_single + alloc.superior_single = 1) := by
  rcases hcfg with rfl | rfl
  · rw [max_capacity_el_hierro] at h2
    refine ⟨_, allocate_el_hierro N h2, ?_⟩
    by_cases hle : N ≤ 40
    · rw [if_pos hle]
      dsimp only
      exact ⟨fun hp => ⟨by omega, by omega⟩, fun hp => by omega⟩
    · rw [if_neg hle]
      dsimp only
      exact ⟨fun hp => ⟨by omega, by omega⟩, fun hp => by omega⟩
  · rw [max_capacity_la_palma] at h2
    refine ⟨_, allocate_la_palma N h2, ?_⟩
    by_cases hle : N ≤ 42
    · rw [if_pos hle]
      dsimp only
      exact ⟨fun hp => ⟨by omega, by omega⟩, fun hp => by omega⟩
    · rw [if_neg hle]
      dsimp only
      exact ⟨fun hp => ⟨by omega, by omega⟩, fun hp => by omega⟩

/-- C9, witness: the parity property instantiated at El Hierro, `N = 45`
(odd, above the standard-shared capacity). -/
theorem allocate_rooms_single_parity_witness :
    ∃ alloc : RoomAllocation, allocate_rooms el_hierro 45 = Except.ok alloc ∧
      (45 % 2 = 0 → alloc.standard_single = 0 ∧ alloc.superior_single = 0) ∧
      (45 % 2 = 1 → alloc.standard_single + alloc.superior_single = 1) :=
  allocate_rooms_single_parity el_hierro (Or.inl rfl) 45 (by decide) (by decide)

/-- C10: with group size 0 and a known property key, the meeting-room cost —
and with it the total price and the detailed breakdown — fails with the
division-by-zero error of the unguarded `/ num_people`, even though
`allocate_rooms 0` itself succeeds and returns the all-zero allocation. -/
theorem zero_group_division_by_zero :
    calculate_meeting_room_cost 0 "el_hierro" = Except.error PyError.zeroDivision ∧
    calculate_meeting_room_cost 0 "la_palma" = Except.error PyError.zeroDivision ∧
    calculate_total_price_per_person 0 "el_hierro" = Except.error PyError.zeroDivision ∧
    calculate_total_price_per_person 0 "la_palma" = Except.error PyError.zeroDivision ∧
    get_detailed_allocation 0 "el_hierro" = Except.error PyError.zeroDivision ∧
    get_detailed_allocation 0 "la_palma" = Except.error PyError.zeroDivision ∧
    allocate_rooms el_hierro 0 = Except.ok ⟨0, 0, 0, 0⟩ ∧
    allocate_rooms la_palma 0 = Except.ok ⟨0, 0, 0, 0⟩ := by
  refine ⟨meeting_zero_el_hierro, meeting_zero_la_palma, total_zero_el_hierro,
    total_zero_la_palma, detailed_zero_el_hierro, detailed_zero_la_palma, ?_, ?_⟩
  · rw [allocate_el_hierro 0 (by omega)]
    norm_num
  · rw [allocate_la_palma 0 (by omega)]
    norm_num
